import Mathlib

/-!
Verification of the realtime-sports-scraper ingestion-to-alert pipeline.

Shallow embedding of the JavaScript sources:
* `src/eventProcessor/EventProcessor.js` (validation, dedup gate, alert generation),
* `src/eventProcessor/rules.js` (card-storm and hat-trick rules, rule registry),
* `src/dataCollector/SofaScoreCollector.js` (score-diff goal detection, minute extraction),
* `src/dataCollector/BwinCollector.js` and the `BaseCollector` (message parsing, reconnect policy).

JavaScript absent values (`undefined`/`null`) are modelled with `Option`; a JS field
access that can throw, and JS `try`/`catch`, are modelled with `Except`.  Wall-clock
time (`Date.now()`, `setTimeout`) is passed explicitly: a cache entry inserted at time
`t0` with TTL `d` is visible to queries at times `t` with `t < t0 + d` (its deletion
timer fires at `t0 + d`).
-/

namespace SportsScraper

/-- JS truthiness of an optional string: absent (`undefined`) and the empty string
are falsy, every other string is truthy. -/
def truthyS : Option String → Bool
  | none => false
  | some s => !s.isEmpty

/-- JS template-literal rendering of an optional string: `undefined` prints as
the text "undefined". -/
def jsStr : Option String → String
  | none => "undefined"
  | some s => s

/-- JS template-literal rendering of an optional integer. -/
def jsInt : Option Int → String
  | none => "undefined"
  | some n => toString n

/-! ## Canonical event shape (`EventProcessor.js`) -/

/-- A score snapshot `{home, away}`. -/
structure Score where
  home : Int
  away : Int
deriving DecidableEq, Repr

/-- The `goalData` payload of a goal event. -/
structure GoalData where
  team : Option String
  player : Option String
  assistBy : Option String
  isPenalty : Option Bool
  isOwnGoal : Option Bool
deriving DecidableEq, Repr

/-- `goalData = {}` : the default used when the field is absent. -/
def GoalData.empty : GoalData := ⟨none, none, none, none, none⟩

/-- The `cardData` payload of a card event. -/
structure CardData where
  team : Option String
  player : Option String
  reason : Option String
deriving DecidableEq, Repr

/-- `cardData = {}` : the default used when the field is absent. -/
def CardData.empty : CardData := ⟨none, none, none⟩

/-- The canonical event consumed by `EventProcessor.process`.  Every field the
processor reads is present; absent JS fields are `none`. -/
structure Event where
  source : Option String
  matchId : Option String
  eventType : Option String
  timestamp : Option String
  minute : Option Int
  homeTeam : Option String
  awayTeam : Option String
  score : Option Score
  goalData : Option GoalData
  cardData : Option CardData
deriving DecidableEq, Repr

/-- The `data` payload of an alert (union of the goal and card shapes;
fields the constructing branch does not set are `none`). -/
structure AlertData where
  homeTeam : Option String
  awayTeam : Option String
  score : Option Score
  minute : Option Int
  team : Option String
  player : Option String
  assistBy : Option String
  isPenalty : Option Bool
  isOwnGoal : Option Bool
  reason : Option String
deriving DecidableEq, Repr

/-- An alert produced by the processor. -/
structure Alert where
  type : String
  severity : String
  timestamp : Nat
  matchId : Option String
  source : Option String
  data : AlertData
  message : String
  raw : Event
deriving DecidableEq, Repr

/-- State of an `EventProcessor` instance: the dedup cache (key and insertion
time of each `cacheEvent` call), the configured TTL, and the enabled-event flags. -/
structure ProcState where
  eventCache : List (String × Nat)
  cacheTimeout : Nat
  enabledGoals : Bool
  enabledRedCards : Bool
  enabledYellowCards : Bool
deriving DecidableEq, Repr

/-- `EventProcessor.isValidEvent`: all four required fields must be truthy
(`event && event.eventType && event.matchId && event.timestamp && event.source`). -/
def isValidEvent (e : Event) : Bool :=
  truthyS e.eventType && truthyS e.matchId && truthyS e.timestamp && truthyS e.source

/-- `EventProcessor.getEventKey`:
`` `${source}:${matchId}:${eventType}:${minute}:${timestamp}` ``. -/
def getEventKey (e : Event) : String :=
  jsStr e.source ++ ":" ++ jsStr e.matchId ++ ":" ++ jsStr e.eventType ++ ":"
    ++ jsInt e.minute ++ ":" ++ jsStr e.timestamp

/-- An entry inserted at `t0` is still in the cache at query time `t` iff its
deletion timer (scheduled for `t0 + timeout`) has not fired yet. -/
def cacheHas (cache : List (String × Nat)) (timeout : Nat) (k : String) (t : Nat) : Bool :=
  cache.any fun p => p.1 == k && t < p.2 + timeout

/-- `EventProcessor.isDuplicate` at wall-clock time `t`. -/
def isDuplicate (st : ProcState) (e : Event) (t : Nat) : Bool :=
  cacheHas st.eventCache st.cacheTimeout (getEventKey e) t

/-- `EventProcessor.formatGoalMessage`.  Reading `score.home` of an absent
`score` throws a `TypeError`, modelled as `Except.error`. -/
def formatGoalMessage (e : Event) : Except String String :=
  match e.score with
  | none => Except.error "TypeError: cannot read properties of undefined (score)"
  | some sc =>
    let gd := e.goalData.getD GoalData.empty
    let m := "⚽ GOAL! " ++ jsStr e.homeTeam ++ " " ++ toString sc.home ++ "-"
      ++ toString sc.away ++ " " ++ jsStr e.awayTeam ++ "\n"
    let m := m ++ "⏱️ " ++ jsInt e.minute ++ "\x27"
    let m := if truthyS gd.player then m ++ "\n⚽ " ++ jsStr gd.player else m
    let m := if truthyS gd.assistBy then m ++ "\n🎯 Assist: " ++ jsStr gd.assistBy else m
    let m := if gd.isPenalty.getD false then m ++ "\n🎯 PENALTY" else m
    let m := if gd.isOwnGoal.getD false then m ++ "\n😱 OWN GOAL" else m
    Except.ok m

/-- `EventProcessor.formatRedCardMessage` (total: no `score` access). -/
def formatRedCardMessage (e : Event) : String :=
  let cd := e.cardData.getD CardData.empty
  let m := "🟥 RED CARD! " ++ jsStr e.homeTeam ++ " vs " ++ jsStr e.awayTeam ++ "\n"
  let m := m ++ "⏱️ " ++ jsInt e.minute ++ "\x27"
  let m := if truthyS cd.player then m ++ "\n👤 " ++ jsStr cd.player else m
  let m := if truthyS cd.reason then m ++ "\n📝 " ++ jsStr cd.reason else m
  m

/-- `EventProcessor.formatYellowCardMessage`. -/
def formatYellowCardMessage (e : Event) : String :=
  let cd := e.cardData.getD CardData.empty
  let m := "🟨 YELLOW CARD! " ++ jsStr e.homeTeam ++ " vs " ++ jsStr e.awayTeam ++ "\n"
  let m := m ++ "⏱️ " ++ jsInt e.minute ++ "\x27"
  let m := if truthyS cd.player then m ++ "\n👤 " ++ jsStr cd.player else m
  let m := if truthyS cd.reason then m ++ "\n📝 " ++ jsStr cd.reason else m
  m

/-- `EventProcessor.processGoal` at wall-clock time `t`.  Building the alert
renders the message, which throws when `score` is absent (and the subsequent
`logger.info` would read `score.home` too). -/
def processGoal (e : Event) (t : Nat) : Except String Alert := do
  let gd := e.goalData.getD GoalData.empty
  let msg ← formatGoalMessage e
  Except.ok
    { type := "goal"
      severity := "high"
      timestamp := t
      matchId := e.matchId
      source := e.source
      data :=
        { homeTeam := e.homeTeam
          awayTeam := e.awayTeam
          score := e.score
          minute := e.minute
          team := gd.team
          player := gd.player
          assistBy := gd.assistBy
          isPenalty := some (gd.isPenalty.getD false)
          isOwnGoal := some (gd.isOwnGoal.getD false)
          reason := none }
      message := msg
      raw := e }

/-- `EventProcessor.processRedCard` at wall-clock time `t` (total). -/
def processRedCard (e : Event) (t : Nat) : Alert :=
  let cd := e.cardData.getD CardData.empty
  { type := "red_card"
    severity := "high"
    timestamp := t
    matchId := e.matchId
    source := e.source
    data :=
      { homeTeam := e.homeTeam
        awayTeam := e.awayTeam
        score := none
        minute := e.minute
        team := cd.team
        player := cd.player
        assistBy := none
        isPenalty := none
        isOwnGoal := none
        reason := cd.reason }
    message := formatRedCardMessage e
    raw := e }

/-- `EventProcessor.processYellowCard` at wall-clock time `t` (total). -/
def processYellowCard (e : Event) (t : Nat) : Alert :=
  let cd := e.cardData.getD CardData.empty
  { type := "yellow_card"
    severity := "medium"
    timestamp := t
    matchId := e.matchId
    source := e.source
    data :=
      { homeTeam := e.homeTeam
        awayTeam := e.awayTeam
        score := none
        minute := e.minute
        team := cd.team
        player := cd.player
        assistBy := none
        isPenalty := none
        isOwnGoal := none
        reason := cd.reason }
    message := formatYellowCardMessage e
    raw := e }

/-- `EventProcessor.processEventType`: dispatch on `eventType`, honouring the
enabled-event flags; unhandled types yield no alert. -/
def processEventType (st : ProcState) (e : Event) (t : Nat) : Except String (Option Alert) :=
  if e.eventType = some "goal" then
    if st.enabledGoals then (processGoal e t).map some else Except.ok none
  else if e.eventType = some "red_card" then
    if st.enabledRedCards then Except.ok (some (processRedCard e t)) else Except.ok none
  else if e.eventType = some "yellow_card" then
    if st.enabledYellowCards then Except.ok (some (processYellowCard e t)) else Except.ok none
  else
    Except.ok none

/-- The alert `process` emits for an admitted event: the result of
`processEventType`, with a thrown error swallowed by the `try`/`catch`. -/
def generatedAlert (st : ProcState) (e : Event) (t : Nat) : Option Alert :=
  match processEventType st e t with
  | Except.ok a => a
  | Except.error _ => none

/-- `EventProcessor.process` at wall-clock time `t`: validate, reject
duplicates, cache the fingerprint, then generate (and emit) the alert.
Returns the new state and the emitted alert, if any. -/
def process (st : ProcState) (e : Event) (t : Nat) : ProcState × Option Alert :=
  if !isValidEvent e then (st, none)
  else if isDuplicate st e t then (st, none)
  else
    ({ st with eventCache := (getEventKey e, t) :: st.eventCache }, generatedAlert st e t)

/-! ### Basic lemmas about `process` -/

/-- An invalid event is rejected with no state change. -/
theorem process_invalid (st : ProcState) (e : Event) (t : Nat)
    (h : isValidEvent e = false) : process st e t = (st, none) := by
  simp [process, h]

/-- A duplicate event is rejected with no state change. -/
theorem process_duplicate (st : ProcState) (e : Event) (t : Nat)
    (h : isDuplicate st e t = true) : process st e t = (st, none) := by
  unfold process
  cases hv : isValidEvent e with
  | false => simp [hv]
  | true => simp [hv, h]

/-- A valid, non-duplicate event is admitted: its fingerprint is cached with
the current time and the alert of `processEventType` is emitted. -/
theorem process_accepts (st : ProcState) (e : Event) (t : Nat)
    (hv : isValidEvent e = true) (hd : isDuplicate st e t = false) :
    process st e t =
      ({ st with eventCache := (getEventKey e, t) :: st.eventCache },
        generatedAlert st e t) := by
  simp [process, hv, hd]

/-- If every cache entry carrying the event's fingerprint has already been
evicted (its timer at `t0 + timeout` fired at or before `t`), the event is not
a duplicate. -/
theorem not_duplicate_of_evicted (st : ProcState) (e : Event) (t : Nat)
    (h : ∀ p ∈ st.eventCache, p.1 = getEventKey e → p.2 + st.cacheTimeout ≤ t) :
    isDuplicate st e t = false := by
  unfold isDuplicate cacheHas
  rw [List.any_eq_false]
  intro p hp
  by_cases hk : p.1 = getEventKey e
  · have := h p hp hk
    simp [hk]
    omega
  · simp [hk]

/-- The fingerprint depends only on the five key fields. -/
theorem getEventKey_congr (e1 e2 : Event)
    (hs : e1.source = e2.source) (hm : e1.matchId = e2.matchId)
    (he : e1.eventType = e2.eventType) (hmin : e1.minute = e2.minute)
    (ht : e1.timestamp = e2.timestamp) : getEventKey e1 = getEventKey e2 := by
  unfold getEventKey
  rw [hs, hm, he, hmin, ht]

/-- After an admission at time `t`, the same fingerprint is a duplicate at any
time `t'` before the entry's eviction. -/
theorem isDuplicate_of_cached (st : ProcState) (e : Event) (k : String) (t t' : Nat)
    (hk : getEventKey e = k) (hmem : (k, t) ∈ st.eventCache)
    (ht : t' < t + st.cacheTimeout) : isDuplicate st e t' = true := by
  unfold isDuplicate cacheHas
  rw [List.any_eq_true]
  exact ⟨(k, t), hmem, by simp [hk, ht]⟩

/-! ## Rule registry (`EventProcessor.applyRules`) and the rules of `rules.js` -/

/-- A registered rule function: evaluating it may throw (`Except.error`) or
return a falsy result (`none`). -/
def RuleFn (α : Type) : Type := Event → Except String (Option α)

/-- `EventProcessor.applyRules`: evaluate every registered rule in registration
order; a throwing rule is caught and logged, a truthy result is collected. -/
def applyRules {α : Type} (rules : List (String × RuleFn α)) (e : Event) :
    List (String × α) :=
  match rules with
  | [] => []
  | (n, f) :: rest =>
    match f e with
    | Except.ok (some r) => (n, r) :: applyRules rest e
    | Except.ok none => applyRules rest e
    | Except.error _ => applyRules rest e

/-- The contribution of one registered rule to an `applyRules` pass. -/
def ruleOutcome {α : Type} (e : Event) (p : String × RuleFn α) : Option (String × α) :=
  match p.2 e with
  | Except.ok (some r) => some (p.1, r)
  | Except.ok none => none
  | Except.error _ => none

/-- `applyRules` collects exactly the truthy results of the non-throwing rules,
in registration order. -/
theorem applyRules_eq_filterMap {α : Type} (rules : List (String × RuleFn α)) (e : Event) :
    applyRules rules e = rules.filterMap (ruleOutcome e) := by
  induction rules with
  | nil => rfl
  | cons p rest ih =>
    obtain ⟨n, f⟩ := p
    unfold applyRules
    cases hf : f e with
    | ok r =>
      cases r with
      | some v => simp [ih, List.filterMap_cons, ruleOutcome, hf]
      | none => simp [ih, List.filterMap_cons, ruleOutcome, hf]
    | error msg => simp [ih, List.filterMap_cons, ruleOutcome, hf]

/-- `applyRules` distributes over concatenation of the registry. -/
theorem applyRules_append {α : Type} (l1 l2 : List (String × RuleFn α)) (e : Event) :
    applyRules (l1 ++ l2) e = applyRules l1 e ++ applyRules l2 e := by
  rw [applyRules_eq_filterMap, applyRules_eq_filterMap, applyRules_eq_filterMap,
    List.filterMap_append]

/-! ### Association lists (JS `Map` with insertion-order update-in-place) -/

/-- `Map.get`. -/
def lookupA {κ α : Type} [BEq κ] : List (κ × α) → κ → Option α
  | [], _ => none
  | (k, v) :: rest, q => if k == q then some v else lookupA rest q

/-- `Map.set`: replaces in place, appends when absent. -/
def setA {κ α : Type} [BEq κ] : List (κ × α) → κ → α → List (κ × α)
  | [], q, v => [(q, v)]
  | (k, w) :: rest, q, v => if k == q then (k, v) :: rest else (k, w) :: setA rest q v

theorem lookupA_setA_self {κ α : Type} [BEq κ] [LawfulBEq κ]
    (m : List (κ × α)) (k : κ) (v : α) : lookupA (setA m k v) k = some v := by
  induction m with
  | nil => simp [setA, lookupA]
  | cons p rest ih =>
    obtain ⟨k0, v0⟩ := p
    by_cases h : k0 == k
    · simp [setA, lookupA, h]
    · simp [setA, lookupA, h, ih]

/-! ### `hatTrickRule` -/

/-- The object returned by `hatTrickRule` when it fires. -/
structure HatTrickResult where
  type : String
  message : String
  player : String
deriving DecidableEq, Repr

/-- `event.goalData?.player` (optional chaining). -/
def goalPlayer (e : Event) : Option String := e.goalData.bind fun gd => gd.player

/-- The closure state of `hatTrickRule`: `playerGoals`, a map from
`` `${matchId}:${player}` `` to the running goal count. -/
def hatTrickStep (playerGoals : List (String × Nat)) (e : Event) :
    List (String × Nat) × Option HatTrickResult :=
  if e.eventType == some "goal" && truthyS (goalPlayer e) then
    let player := jsStr (goalPlayer e)
    let key := jsStr e.matchId ++ ":" ++ player
    let count := (lookupA playerGoals key).getD 0 + 1
    let playerGoals := setA playerGoals key count
    if count = 3 then
      (playerGoals,
        some { type := "hat_trick", message := "🎩 HAT-TRICK! " ++ player, player := player })
    else (playerGoals, none)
  else (playerGoals, none)

/-- Run `hatTrickRule` over a sequence of events, collecting each result. -/
def hatTrickRun (st : List (String × Nat)) :
    List Event → List (String × Nat) × List (Option HatTrickResult)
  | [] => (st, [])
  | e :: es =>
    ((hatTrickRun (hatTrickStep st e).1 es).1,
      (hatTrickStep st e).2 :: (hatTrickRun (hatTrickStep st e).1 es).2)

/-- The alert `hatTrickRule` emits for player `p`. -/
def hatTrickResultFor (p : String) : HatTrickResult :=
  { type := "hat_trick", message := "🎩 HAT-TRICK! " ++ p, player := p }

theorem hatTrickStep_counted (st : List (String × Nat)) (e : Event) (p : String)
    (he : e.eventType = some "goal") (hp : goalPlayer e = some p) (hne : p ≠ "") :
    hatTrickStep st e =
      (setA st (jsStr e.matchId ++ ":" ++ p) ((lookupA st (jsStr e.matchId ++ ":" ++ p)).getD 0 + 1),
        if (lookupA st (jsStr e.matchId ++ ":" ++ p)).getD 0 + 1 = 3 then
          some (hatTrickResultFor p)
        else none) := by
  have hpe : p.isEmpty = false := by
    cases h : p.isEmpty
    · rfl
    · exact absurd ((String.isEmpty_iff p).mp h) hne
  have hjs : jsStr (some p) = p := rfl
  unfold hatTrickStep
  rw [he, hp]
  simp only [truthyS, hpe, Bool.not_false, beq_self_eq_true, Bool.and_self, if_true,
    hatTrickResultFor, hjs]
  by_cases h3 : (lookupA st (jsStr e.matchId ++ ":" ++ p)).getD 0 + 1 = 3
  · rw [if_pos h3, if_pos h3]
  · rw [if_neg h3, if_neg h3]

/-- Counting invariant for `hatTrickRule`: starting from a stored count `c` for
the key of `(matchId, p)`, a run of counted goals yields `some` exactly at the
position where the count reaches 3. -/
theorem hatTrickRun_counted (m : Option String) (p : String) (hne : p ≠ "")
    (es : List Event)
    (hall : ∀ e ∈ es, e.eventType = some "goal" ∧ e.matchId = m ∧ goalPlayer e = some p)
    (st : List (String × Nat)) (c : Nat)
    (hc : (lookupA st (jsStr m ++ ":" ++ p)).getD 0 = c) :
    (hatTrickRun st es).2 =
      (List.range es.length).map fun i =>
        if c + i = 2 then some (hatTrickResultFor p) else none := by
  induction es generalizing st c with
  | nil => simp [hatTrickRun]
  | cons e es ih =>
    obtain ⟨he, hm, hp⟩ := hall e (List.mem_cons_self e es)
    have hstep := hatTrickStep_counted st e p he hp hne
    rw [hm, hc] at hstep
    have htail :
        (hatTrickRun (setA st (jsStr m ++ ":" ++ p) (c + 1)) es).2 =
          (List.range es.length).map fun i =>
            if c + 1 + i = 2 then some (hatTrickResultFor p) else none := by
      refine ih (fun x hx => hall x (List.mem_cons_of_mem _ hx)) _ (c + 1) ?_
      rw [lookupA_setA_self]
      rfl
    unfold hatTrickRun
    rw [hstep]
    simp only [List.length_cons, List.range_succ_eq_map, List.map_cons, List.map_map]
    rw [htail]
    congr 1
    · by_cases h2 : c = 2
      · rw [if_pos (by omega), if_pos (by omega)]
      · rw [if_neg (by omega), if_neg (by omega)]
    · apply List.map_congr_left
      intro i _
      simp only [Function.comp_apply]
      by_cases h2 : c + 1 + i = 2
      · rw [if_pos h2, if_pos (by omega)]
      · rw [if_neg h2, if_neg (by omega)]

/-! ### `multipleCardsRule` -/

/-- A record pushed into the per-match card history. -/
structure CardRec where
  minute : Option Int
  type : String
deriving DecidableEq, Repr

/-- The object returned by `multipleCardsRule` when it fires. -/
structure CardStormResult where
  type : String
  message : String
  count : Nat
deriving DecidableEq, Repr

/-- JS `event.minute - c.minute <= 10`: any comparison against an absent
operand is `NaN <= 10`, i.e. false. -/
def withinTen : Option Int → Option Int → Bool
  | some a, some b => decide (a - b ≤ 10)
  | _, _ => false

/-- The closure state of `multipleCardsRule`: `cardHistory`, keyed by the raw
`event.matchId` value. -/
def multipleCardsStep (cardHistory : List (Option String × List CardRec)) (e : Event) :
    List (Option String × List CardRec) × Option CardStormResult :=
  if e.eventType == some "yellow_card" || e.eventType == some "red_card" then
    let cards : List CardRec := (lookupA cardHistory e.matchId).getD []
    let cards : List CardRec := cards ++ [{ minute := e.minute, type := jsStr e.eventType }]
    let recent : List CardRec := cards.filter fun c => withinTen e.minute c.minute
    let hist := setA cardHistory e.matchId cards
    if 3 ≤ recent.length then
      (hist,
        some { type := "card_storm", message := "🔥 CARD STORM! Multiple cards in short time",
               count := recent.length })
    else (hist, none)
  else (cardHistory, none)

/-- Run `multipleCardsRule` over a sequence of events, collecting each result. -/
def multipleCardsRun (st : List (Option String × List CardRec)) :
    List Event → List (Option String × List CardRec) × List (Option CardStormResult)
  | [] => (st, [])
  | e :: es =>
    ((multipleCardsRun (multipleCardsStep st e).1 es).1,
      (multipleCardsStep st e).2 :: (multipleCardsRun (multipleCardsStep st e).1 es).2)

/-! ## `SofaScoreCollector` (`SofaScoreCollector.js`)

`handleMatchUpdate` also calls two network boundaries excluded by the spec:
`fetchMatchDetailsFromAPI` (match enrichment lookup) and the incidents API of
`enrichGoalWithPlayerAPI` / `enrichCardWithPlayer`.  Their outcomes are passed
in as explicit inputs (`fetchResult`, `EnrichInfo`); the functions below model
exactly which event fields those calls overwrite.  -/

/-- `Map.delete` on an association list. -/
def eraseA {κ α : Type} [BEq κ] : List (κ × α) → κ → List (κ × α)
  | [], _ => []
  | (k, v) :: rest, q => if k == q then rest else (k, v) :: eraseA rest q

/-- The fields of a WebSocket frame body that `handleMatchUpdate` and
`extractMinute` read.  `homeTeamName`/`awayTeamName` model
`data.homeTeam?.name` / `data.awayTeam?.name`; `tournamentName` models the
`data.tournament?.name || data.tournament?.uniqueTournament?.name` chain. -/
structure SofaData where
  id : Option String
  homeScoreCurrent : Option Int
  awayScoreCurrent : Option Int
  cardsCode : Option String
  statusType : Option String
  statusCode : Option Int
  statusDescription : Option String
  currentPeriodStartTimestamp : Option Int
  homeTeamName : Option String
  awayTeamName : Option String
  tournamentName : Option String
deriving DecidableEq, Repr

/-- An entry of the `matchInfo` cache. -/
structure MatchDetails where
  homeTeam : Option String
  awayTeam : Option String
  tournament : Option String
deriving DecidableEq, Repr

/-- The event an emission of `handleMatchUpdate` carries. -/
structure SofaEvent where
  timestamp : Int
  matchId : String
  source : String
  homeTeam : Option String
  awayTeam : Option String
  tournament : Option String
  eventType : Option String
  team : Option String
  teamName : Option String
  score : Option String
  minute : Option Int
  player : Option String
  assistBy : Option String
  addedTime : Option Int
deriving DecidableEq, Repr

/-- The observable outcome of an incidents-API enrichment call: the resolved
player (the code falls back to "Unknown"), an optional assist, an optional
minute override (`goal.time || event.minute`) and added time. -/
structure EnrichInfo where
  player : String
  assistBy : Option String
  minuteOverride : Option Int
  addedTime : Option Int
deriving DecidableEq, Repr

/-- `enrichGoalWithPlayerAPI`: overwrites `player`, `assistBy`, possibly
`minute`, and `addedTime` of the goal event. -/
def applyGoalEnrich (info : EnrichInfo) (ev : SofaEvent) : SofaEvent :=
  { ev with
    player := some info.player
    assistBy := info.assistBy
    minute := match info.minuteOverride with | some t => some t | none => ev.minute
    addedTime := info.addedTime }

/-- `enrichCardWithPlayer`: overwrites `player`, possibly `minute`, and
`addedTime` of the card event. -/
def applyCardEnrich (info : EnrichInfo) (ev : SofaEvent) : SofaEvent :=
  { ev with
    player := some info.player
    minute := match info.minuteOverride with | some t => some t | none => ev.minute
    addedTime := info.addedTime }

/-- `parseInt(s, 10)` on a digits-only string, over its character list. -/
def parseDigits (l : List Char) : Nat :=
  l.foldl (fun n c => n * 10 + (c.toNat - 48)) 0

/-- `/^\d+$/.test(s)`: at least one character, all digits. -/
def isDigits (l : List Char) : Bool :=
  !l.isEmpty && l.all Char.isDigit

/-- `SofaScoreCollector.extractMinute` at wall-clock time `now` (milliseconds):
a digits-only `statusDescription` wins; otherwise derive from the current
period's start timestamp (seconds), adding 45 and capping at 90 in the second
half (status code 7), capping at 45 otherwise; else `null`. -/
def extractMinute (now : Int) (d : SofaData) : Option Int :=
  if truthyS d.statusDescription && isDigits (jsStr d.statusDescription).data then
    some ((parseDigits (jsStr d.statusDescription).data : Nat) : Int)
  else
    match d.currentPeriodStartTimestamp with
    | some ts =>
      if ts ≠ 0 then
        let elapsed := Int.fdiv now 1000 - ts
        let minutes := Int.fdiv elapsed 60
        if d.statusCode = some 7 then some (min (45 + minutes) 90)
        else some (min minutes 45)
      else none
    | none => none

/-- The `previousScores` and `matchInfo` maps of a `SofaScoreCollector`. -/
structure SofaState where
  previousScores : List (String × Score)
  matchInfo : List (String × MatchDetails)
deriving DecidableEq, Repr

/-- `SofaScoreCollector.handleMatchUpdate`.  `wsTimestamp` is the frame
timestamp, `now` the wall clock used by `extractMinute`; `fetchResult` is the
record `fetchMatchDetailsFromAPI` would cache (its failure path caches
"Unknown" placeholders, so it always caches something); the `EnrichInfo`
arguments are the outcomes of the per-emission incidents-API calls.  Returns
the new state and the emitted events in emission order. -/
def handleMatchUpdate (st : SofaState) (d : SofaData) (wsTimestamp : Int) (now : Int)
    (fetchResult : MatchDetails) (goalEnrich yellowEnrich redEnrich : EnrichInfo) :
    SofaState × List SofaEvent :=
  match d.id with
  | none => (st, [])
  | some matchId =>
    let matchInfo :=
      if d.homeTeamName.isSome ∧ d.awayTeamName.isSome
          ∧ lookupA st.matchInfo matchId = none then
        setA st.matchInfo matchId
          { homeTeam := d.homeTeamName, awayTeam := d.awayTeamName,
            tournament := some (d.tournamentName.getD "") }
      else st.matchInfo
    let matchInfo :=
      if lookupA matchInfo matchId = none then setA matchInfo matchId fetchResult
      else matchInfo
    let matchDetails := (lookupA matchInfo matchId).getD ⟨none, none, none⟩
    let ev : SofaEvent :=
      { timestamp := wsTimestamp, matchId := matchId, source := "sofascore",
        homeTeam := matchDetails.homeTeam, awayTeam := matchDetails.awayTeam,
        tournament := matchDetails.tournament,
        eventType := none, team := none, teamName := none, score := none,
        minute := none, player := none, assistBy := none, addedTime := none }
    let scoreBlock : List (String × Score) × SofaEvent × List SofaEvent :=
      if d.homeScoreCurrent.isSome ∨ d.awayScoreCurrent.isSome then
        let currentScore : Score :=
          { home := d.homeScoreCurrent.getD 0, away := d.awayScoreCurrent.getD 0 }
        let res : SofaEvent × List SofaEvent :=
          match lookupA st.previousScores matchId with
          | none => (ev, [])
          | some previousScore =>
            if currentScore.home > previousScore.home then
              let g := applyGoalEnrich goalEnrich
                { ev with
                  eventType := some "goal", team := some "home",
                  teamName := matchDetails.homeTeam,
                  score := some (toString currentScore.home ++ "-" ++ toString currentScore.away),
                  minute := extractMinute now d }
              (g, [g])
            else if currentScore.away > previousScore.away then
              let g := applyGoalEnrich goalEnrich
                { ev with
                  eventType := some "goal", team := some "away",
                  teamName := matchDetails.awayTeam,
                  score := some (toString currentScore.home ++ "-" ++ toString currentScore.away),
                  minute := extractMinute now d }
              (g, [g])
            else (ev, [])
        (setA st.previousScores matchId currentScore, res)
      else (st.previousScores, ev, [])
    let cardEvents : List SofaEvent :=
      if truthyS d.cardsCode then
        let code := jsStr d.cardsCode
        let yellowPart : SofaEvent × List SofaEvent :=
          if code.contains '1' then
            let y := applyCardEnrich yellowEnrich
              { scoreBlock.2.1 with
                eventType := some "yellow_card",
                team := some (if code.front = '1' then "home" else "away"),
                teamName :=
                  if code.front = '1' then matchDetails.homeTeam else matchDetails.awayTeam,
                minute := extractMinute now d }
            (y, [y])
          else (scoreBlock.2.1, [])
        let redPart : List SofaEvent :=
          if code.contains '2' then
            [applyCardEnrich redEnrich
              { yellowPart.1 with
                eventType := some "red_card",
                team := some (if code.front = '2' then "home" else "away"),
                teamName :=
                  if code.front = '2' then matchDetails.homeTeam else matchDetails.awayTeam,
                minute := extractMinute now d }]
          else []
        yellowPart.2 ++ redPart
      else []
    let previousScores :=
      if d.statusType = some "finished" then eraseA scoreBlock.1 matchId else scoreBlock.1
    ({ previousScores := previousScores, matchInfo := matchInfo },
      scoreBlock.2.2 ++ cardEvents)

/-! ## `BaseCollector` reconnect policy (`BaseCollector.js`) -/

/-- The connection-supervision fields of a `BaseCollector`. -/
structure BCState where
  reconnectAttempts : Nat
  maxReconnectAttempts : Nat
  reconnectDelay : Nat
deriving DecidableEq, Repr

/-- What one `handleReconnect` call does: schedule a retry after a delay, or
emit the terminal `maxReconnectReached` signal and schedule nothing. -/
inductive ReconnectOutcome where
  | scheduled (delay : Nat)
  | maxReached
deriving DecidableEq, Repr

/-- The backoff delay for a given attempt number:
`this.reconnectDelay * Math.min(this.reconnectAttempts, 5)`. -/
def backoffDelay (reconnectDelay attempt : Nat) : Nat :=
  reconnectDelay * min attempt 5

/-- `BaseCollector.handleReconnect`. -/
def handleReconnect (st : BCState) : BCState × ReconnectOutcome :=
  if st.maxReconnectAttempts ≤ st.reconnectAttempts then
    (st, ReconnectOutcome.maxReached)
  else
    let a := st.reconnectAttempts + 1
    ({ st with reconnectAttempts := a },
      ReconnectOutcome.scheduled (backoffDelay st.reconnectDelay a))

/-- The counter effect of `BaseCollector.onOpen` (successful `Connected`
transition): `this.reconnectAttempts = 0`. -/
def onOpenReset (st : BCState) : BCState := { st with reconnectAttempts := 0 }

/-! ## Message parsing (`BwinCollector.parseMessage`, `BaseCollector.onMessage`)

`JSON.parse` is the JS runtime, not repository code; its possible outcomes on
the raw text are enumerated by `BwinRaw`: the text fails to parse, or parses to
`null`, to a non-null primitive, or to an object (whose fields the collector
reads are in `BwinMsg`).  Throw sites are explicit `Except.error`s. -/

/-- The fields `BwinCollector.normalizeEvent` / `mapEventType` read from a
parsed message object. -/
structure BwinMsg where
  type : Option String
  eventType : Option String
  matchId : Option String
  gameId : Option String
  homeTeam : Option String
  home : Option String
  awayTeam : Option String
  away : Option String
  score : Option Score
  minute : Option Int
  matchTime : Option Int
  team : Option String
  scoringTeam : Option String
  player : Option String
  scorer : Option String
  assist : Option String
  assistedBy : Option String
  isOwnGoal : Option Bool
  isPenalty : Option Bool
  reason : Option String
deriving DecidableEq, Repr

/-- A message object with every field absent. -/
def BwinMsg.empty : BwinMsg :=
  ⟨none, none, none, none, none, none, none, none, none, none,
    none, none, none, none, none, none, none, none, none, none⟩

/-- JS `a || b` on optional strings (empty string and absence are falsy). -/
def orS (a b : Option String) : Option String := if truthyS a then a else b

/-- JS number truthiness: `0` is falsy. -/
def truthyI : Option Int → Bool
  | none => false
  | some n => n != 0

/-- JS `a || b` on optional numbers. -/
def orI (a b : Option Int) : Option Int := if truthyI a then a else b

/-- The `goalData` payload built by `BwinCollector.normalizeEvent`. -/
structure BwinGoalData where
  team : Option String
  player : Option String
  assistBy : Option String
  minute : Option Int
  isOwnGoal : Bool
  isPenalty : Bool
deriving DecidableEq, Repr

/-- The `cardData` payload built by `BwinCollector.normalizeEvent`. -/
structure BwinCardData where
  team : Option String
  player : Option String
  minute : Option Int
  reason : String
deriving DecidableEq, Repr

/-- A normalized Bwin event (the opaque `data` passthrough is carried by
`raw`). -/
structure BwinNorm where
  source : String
  timestamp : Nat
  eventType : Option String
  matchId : Option String
  homeTeam : Option String
  awayTeam : Option String
  score : Score
  minute : Option Int
  goalData : Option BwinGoalData
  cardData : Option BwinCardData
  raw : BwinMsg
deriving DecidableEq, Repr

/-- `BwinCollector.mapEventType`: `mapping[type] || type`. -/
def mapEventType : Option String → Option String
  | none => none
  | some t =>
    if t = "goal" then some "goal"
    else if t = "redCard" then some "red_card"
    else if t = "yellowCard" then some "yellow_card"
    else if t = "matchStart" then some "match_start"
    else if t = "matchEnd" then some "match_end"
    else some t

/-- `BwinCollector.normalizeEvent` at wall-clock time `now`. -/
def normalizeEvent (ev : BwinMsg) (now : Nat) : BwinNorm :=
  let et := mapEventType (orS ev.eventType ev.type)
  let base : BwinNorm :=
    { source := "bwin", timestamp := now, eventType := et,
      matchId := orS ev.matchId ev.gameId,
      homeTeam := orS ev.homeTeam ev.home,
      awayTeam := orS ev.awayTeam ev.away,
      score := ev.score.getD ⟨0, 0⟩,
      minute := orI ev.minute ev.matchTime,
      goalData := none, cardData := none, raw := ev }
  let base :=
    if et = some "goal" then
      { base with
        goalData := some
          { team := orS ev.team ev.scoringTeam,
            player := orS ev.player ev.scorer,
            assistBy := orS ev.assist ev.assistedBy,
            minute := ev.minute,
            isOwnGoal := ev.isOwnGoal.getD false,
            isPenalty := ev.isPenalty.getD false } }
    else base
  if et = some "red_card" ∨ et = some "yellow_card" then
    { base with
      cardData := some
        { team := ev.team, player := ev.player, minute := ev.minute,
          reason := ev.reason.getD "" } }
  else base

/-- The outcome of `JSON.parse` on a raw frame: throw, `null`, a non-null
primitive (with its JS truthiness), or an object. -/
inductive BwinRaw where
  | malformed (text : String)
  | jsonNull
  | jsonPrim (text : String) (truthy : Bool)
  | jsonObj (o : BwinMsg)
deriving DecidableEq, Repr

/-- What `parseMessage` hands back when it does not return `null`. -/
inductive ParsedMessage where
  | normalized (e : BwinNorm)
  | passthroughPrim (text : String) (truthy : Bool)
  | passthroughObj (o : BwinMsg)
deriving DecidableEq, Repr

/-- JS truthiness of a `parseMessage` result (objects are always truthy). -/
def truthyMsg : Option ParsedMessage → Bool
  | none => false
  | some (ParsedMessage.passthroughPrim _ b) => b
  | some _ => true

/-- The body of the `try` block of `BwinCollector.parseMessage`: `JSON.parse`
may throw; reading `.type` of `null` throws; a parsed `type === 'event'`
object is normalized, any other parse result is returned as-is. -/
def bwinParseBody (data : BwinRaw) (now : Nat) : Except String (Option ParsedMessage) :=
  match data with
  | BwinRaw.malformed text => Except.error ("SyntaxError: unexpected token in JSON: " ++ text)
  | BwinRaw.jsonNull => Except.error "TypeError: cannot read properties of null"
  | BwinRaw.jsonPrim text b => Except.ok (some (ParsedMessage.passthroughPrim text b))
  | BwinRaw.jsonObj o =>
    if o.type = some "event" then
      Except.ok (some (ParsedMessage.normalized (normalizeEvent o now)))
    else Except.ok (some (ParsedMessage.passthroughObj o))

/-- `BwinCollector.parseMessage`: the `catch` turns every thrown error into
`null`. -/
def bwinParseMessage (data : BwinRaw) (now : Nat) : Option ParsedMessage :=
  match bwinParseBody data now with
  | Except.ok r => r
  | Except.error _ => none

/-- `BaseCollector.parseMessage`: plain `JSON.parse` with the catch returning
`null` (a parsed `null` is returned as-is, i.e. also `null`). -/
def baseParseMessage (data : BwinRaw) : Option ParsedMessage :=
  match data with
  | BwinRaw.malformed _ => none
  | BwinRaw.jsonNull => none
  | BwinRaw.jsonPrim text b => some (ParsedMessage.passthroughPrim text b)
  | BwinRaw.jsonObj o => some (ParsedMessage.passthroughObj o)

/-- `BaseCollector.onMessage` with the Bwin parser: parse inside its own
`try`, emit `data` when the result is truthy.  Returns what is emitted;
`Except.error` would mean an exception escaped the read-loop callback. -/
def bwinOnMessage (data : BwinRaw) (now : Nat) : Except String (Option ParsedMessage) :=
  match bwinParseMessage data now with
  | m => if truthyMsg m then Except.ok m else Except.ok none

/-! ## Claim theorems -/

/-- C1: a valid event whose fingerprint has no live cache entry is admitted —
its fingerprint is recorded at the current time and the alert generation step
runs; an event with an identical fingerprint processed at any time within the
TTL of the recorded entry is rejected with no alert and no state change; once
every entry for the fingerprint has been evicted (TTL elapsed), an identical
fingerprint is admitted again. -/
theorem dedup_gate_ttl (st : ProcState) (e : Event) (t : Nat) :
    (isValidEvent e = true → isDuplicate st e t = false →
      process st e t =
        ({ st with eventCache := (getEventKey e, t) :: st.eventCache },
          generatedAlert st e t))
    ∧ (isValidEvent e = true → isDuplicate st e t = false →
        ∀ (e2 : Event) (t2 : Nat), getEventKey e2 = getEventKey e →
          t2 < t + st.cacheTimeout →
          process (process st e t).1 e2 t2 = ((process st e t).1, none))
    ∧ (isValidEvent e = true →
        (∀ p ∈ st.eventCache, p.1 = getEventKey e → p.2 + st.cacheTimeout ≤ t) →
        process st e t =
          ({ st with eventCache := (getEventKey e, t) :: st.eventCache },
            generatedAlert st e t)) := by
  refine ⟨process_accepts st e t, fun hv hd e2 t2 hk ht2 => ?_, fun hv hev => ?_⟩
  · have hst1 : (process st e t).1 =
        { st with eventCache := (getEventKey e, t) :: st.eventCache } := by
      rw [process_accepts st e t hv hd]
    have hdup : isDuplicate (process st e t).1 e2 t2 = true := by
      rw [hst1]
      exact isDuplicate_of_cached _ e2 (getEventKey e) t t2 hk
        (List.mem_cons_self _ _) (by simpa using ht2)
    exact process_duplicate _ e2 t2 hdup
  · exact process_accepts st e t hv (not_duplicate_of_evicted st e t hev)

/-- A typical valid goal event. -/
def sampleEvent : Event :=
  { source := some "bwin", matchId := some "m1", eventType := some "goal",
    timestamp := some "1700000000", minute := some 10,
    homeTeam := some "Arsenal", awayTeam := some "Chelsea", score := some ⟨1, 0⟩,
    goalData := some ⟨some "home", some "Saka", none, none, none⟩, cardData := none }

/-- A freshly constructed processor state (default options). -/
def sampleState : ProcState :=
  { eventCache := [], cacheTimeout := 5000,
    enabledGoals := true, enabledRedCards := true, enabledYellowCards := true }

/-- Witness for C1 at a concrete event: admission at `t = 0`, rejection of the
identical fingerprint at `t = 4999`, re-admission once the entry has expired. -/
theorem dedup_gate_ttl_witness :
    process sampleState sampleEvent 0 =
      ({ sampleState with eventCache := [(getEventKey sampleEvent, 0)] },
        generatedAlert sampleState sampleEvent 0)
    ∧ process (process sampleState sampleEvent 0).1 sampleEvent 4999 =
        ((process sampleState sampleEvent 0).1, none)
    ∧ process { sampleState with eventCache := [(getEventKey sampleEvent, 0)] }
        sampleEvent 5000 =
      ({ sampleState with
          eventCache := [(getEventKey sampleEvent, 5000), (getEventKey sampleEvent, 0)] },
        generatedAlert { sampleState with eventCache := [(getEventKey sampleEvent, 0)] }
          sampleEvent 5000) := by
  refine ⟨(dedup_gate_ttl sampleState sampleEvent 0).1 (by decide) (by decide),
    (dedup_gate_ttl sampleState sampleEvent 0).2.1 (by decide) (by decide)
      sampleEvent 4999 rfl (by decide),
    (dedup_gate_ttl { sampleState with eventCache := [(getEventKey sampleEvent, 0)] }
      sampleEvent 5000).2.2 (by decide) ?_⟩
  intro p hp _
  have : p = (getEventKey sampleEvent, 0) := by simpa using hp
  rw [this]
  decide

/-- C2: an event missing any of the four required fields fails validation and
is rejected before the dedup gate — no fingerprint is cached, no alert is
emitted, the state is unchanged. -/
theorem invalid_event_rejected (st : ProcState) (e : Event) (t : Nat)
    (h : e.source = none ∨ e.matchId = none ∨ e.eventType = none ∨ e.timestamp = none) :
    isValidEvent e = false ∧ process st e t = (st, none) := by
  have hv : isValidEvent e = false := by
    unfold isValidEvent
    rcases h with h | h | h | h <;> simp [h, truthyS]
  exact ⟨hv, process_invalid st e t hv⟩

/-- A goal event with no `source` field. -/
def sourcelessEvent : Event :=
  { source := none, matchId := some "m1", eventType := some "goal",
    timestamp := some "1700000000", minute := some 10,
    homeTeam := none, awayTeam := none, score := some ⟨1, 0⟩,
    goalData := none, cardData := none }

/-- Witness for C2: the sourceless event is rejected with no state change. -/
theorem invalid_event_rejected_witness :
    isValidEvent sourcelessEvent = false ∧
      process sampleState sourcelessEvent 0 = (sampleState, none) :=
  invalid_event_rejected sampleState sourcelessEvent 0 (Or.inl rfl)

/-- C10: the dedup decision depends only on the five fingerprint fields — two
events agreeing on `source`, `matchId`, `eventType`, `minute` and `timestamp`
share a fingerprint, and after the first is admitted the second is rejected
within the TTL whatever its other fields are; the fingerprint is cached before
alert generation, so this holds even when the first event produced no alert. -/
theorem dedup_depends_only_on_fingerprint (st : ProcState) (e1 e2 : Event) (t t2 : Nat)
    (hs : e1.source = e2.source) (hm : e1.matchId = e2.matchId)
    (he : e1.eventType = e2.eventType) (hmin : e1.minute = e2.minute)
    (ht : e1.timestamp = e2.timestamp)
    (hv : isValidEvent e1 = true) (hd : isDuplicate st e1 t = false)
    (ht2 : t2 < t + st.cacheTimeout) :
    getEventKey e1 = getEventKey e2 ∧
      process (process st e1 t).1 e2 t2 = ((process st e1 t).1, none) := by
  have hkey := getEventKey_congr e1 e2 hs hm he hmin ht
  have hst1 : (process st e1 t).1 =
      { st with eventCache := (getEventKey e1, t) :: st.eventCache } := by
    rw [process_accepts st e1 t hv hd]
  have hdup : isDuplicate (process st e1 t).1 e2 t2 = true := by
    rw [hst1]
    exact isDuplicate_of_cached _ e2 (getEventKey e1) t t2 hkey.symm
      (List.mem_cons_self _ _) (by simpa using ht2)
  exact ⟨hkey, process_duplicate _ e2 t2 hdup⟩

/-- A `match_start` event (unhandled type: `process` emits no alert for it). -/
def unhandledEvent1 : Event :=
  { source := some "sofascore", matchId := some "m7", eventType := some "match_start",
    timestamp := some "T0", minute := some 1,
    homeTeam := some "A", awayTeam := some "B", score := some ⟨0, 0⟩,
    goalData := none, cardData := none }

/-- Same fingerprint as `unhandledEvent1`, every other field different. -/
def unhandledEvent2 : Event :=
  { source := some "sofascore", matchId := some "m7", eventType := some "match_start",
    timestamp := some "T0", minute := some 1,
    homeTeam := some "X", awayTeam := some "Y", score := some ⟨3, 2⟩,
    goalData := some ⟨some "home", some "Q", none, some true, none⟩,
    cardData := some ⟨some "away", some "R", some "foul"⟩ }

/-- Witness for C10: the first `match_start` event produces no alert, yet its
fingerprint still suppresses the second event with different non-key fields. -/
theorem dedup_depends_only_on_fingerprint_witness :
    (process sampleState unhandledEvent1 100).2 = none ∧
      getEventKey unhandledEvent1 = getEventKey unhandledEvent2 ∧
      process (process sampleState unhandledEvent1 100).1 unhandledEvent2 4000 =
        ((process sampleState unhandledEvent1 100).1, none) :=
  ⟨by decide,
    dedup_depends_only_on_fingerprint sampleState unhandledEvent1 unhandledEvent2 100 4000
      rfl rfl rfl rfl rfl (by decide) (by decide) (by decide)⟩

/-- C4: a rule that throws on every invocation contributes nothing and blocks
nothing — `applyRules` over a registry containing it equals the run without
it, and in general the results are exactly the truthy results of the
non-throwing rules, collected in registration order. -/
theorem rule_isolation (α : Type) (pre post : List (String × RuleFn α)) (n : String)
    (f : RuleFn α) (e : Event) (hf : ∀ ev, ∃ msg, f ev = Except.error msg) :
    applyRules (pre ++ (n, f) :: post) e = applyRules pre e ++ applyRules post e ∧
      applyRules (pre ++ (n, f) :: post) e = (pre ++ post).filterMap (ruleOutcome e) := by
  obtain ⟨msg, hmsg⟩ := hf e
  have hmid : applyRules ((n, f) :: post) e = applyRules post e := by
    simp [applyRules, hmsg]
  refine ⟨by rw [applyRules_append, hmid], ?_⟩
  rw [applyRules_append, hmid, applyRules_eq_filterMap, applyRules_eq_filterMap,
    List.filterMap_append]

/-- A rule returning a constant truthy result. -/
def ruleOk1 : RuleFn String := fun _ => Except.ok (some "r1")

/-- A second rule returning a constant truthy result. -/
def ruleOk2 : RuleFn String := fun _ => Except.ok (some "r2")

/-- A rule that throws on every invocation. -/
def ruleBoom : RuleFn String := fun _ => Except.error "boom"

/-- Witness for C4: with the throwing rule registered between two good rules,
both good rules still produce their results, in order. -/
theorem rule_isolation_witness :
    applyRules ([("a", ruleOk1)] ++ ("bad", ruleBoom) :: [("b", ruleOk2)]) sampleEvent =
        applyRules [("a", ruleOk1)] sampleEvent ++ applyRules [("b", ruleOk2)] sampleEvent
      ∧ applyRules ([("a", ruleOk1)] ++ ("bad", ruleBoom) :: [("b", ruleOk2)]) sampleEvent =
        [("a", "r1"), ("b", "r2")] :=
  ⟨(rule_isolation String [("a", ruleOk1)] [("b", ruleOk2)] "bad" ruleBoom sampleEvent
      (fun _ => ⟨"boom", rfl⟩)).1,
    ((rule_isolation String [("a", ruleOk1)] [("b", ruleOk2)] "bad" ruleBoom sampleEvent
      (fun _ => ⟨"boom", rfl⟩)).2).trans rfl⟩

/-- C6: over any run of goal events for one `matchId` and one truthy player,
starting with no stored count for that key, `hatTrickRule` fires exactly on
the third event — `none` on the first, second, fourth and every later one. -/
theorem hat_trick_exactly_on_third (m : Option String) (p : String) (hne : p ≠ "")
    (es : List Event)
    (hall : ∀ e ∈ es, e.eventType = some "goal" ∧ e.matchId = m ∧ goalPlayer e = some p)
    (st : List (String × Nat)) (hfresh : lookupA st (jsStr m ++ ":" ++ p) = none) :
    (hatTrickRun st es).2 =
      (List.range es.length).map fun i =>
        if i = 2 then some (hatTrickResultFor p) else none := by
  have h := hatTrickRun_counted m p hne es hall st 0 (by rw [hfresh]; rfl)
  rw [h]
  apply List.map_congr_left
  intro i _
  rw [Nat.zero_add]

/-- A goal event by one fixed player. -/
def htGoalEvent : Event :=
  { source := some "bwin", matchId := some "m2", eventType := some "goal",
    timestamp := some "t1", minute := some 5, homeTeam := none, awayTeam := none,
    score := none, goalData := some ⟨some "home", some "Messi", none, none, none⟩,
    cardData := none }

/-- Witness for C6: four goals by the same player in the same match produce
the hat-trick alert exactly once, on the third. -/
theorem hat_trick_exactly_on_third_witness :
    (hatTrickRun [] [htGoalEvent, htGoalEvent, htGoalEvent, htGoalEvent]).2 =
      [none, none, some (hatTrickResultFor "Messi"), none] := by
  have h := hat_trick_exactly_on_third (some "m2") "Messi" (by decide)
    [htGoalEvent, htGoalEvent, htGoalEvent, htGoalEvent]
    (by
      intro e he
      have h1 : e = htGoalEvent := by
        simp only [List.mem_cons, List.not_mem_nil, or_false] at he
        rcases he with h | h | h | h <;> exact h
      rw [h1]
      exact ⟨rfl, rfl, rfl⟩)
    [] rfl
  rw [h]
  rfl

/-- The record `multipleCardsRule` pushes for a card event. -/
def cardRecOf (e : Event) : CardRec := ⟨e.minute, jsStr e.eventType⟩

/-- The branch `multipleCardsRule` takes on a card event. -/
theorem multipleCardsStep_card (hist : List (Option String × List CardRec)) (e : Event)
    (hcard : e.eventType = some "yellow_card" ∨ e.eventType = some "red_card") :
    multipleCardsStep hist e =
      if 3 ≤ ((((lookupA hist e.matchId).getD []) ++ [cardRecOf e]).filter
          fun c : CardRec => withinTen e.minute c.minute).length then
        (setA hist e.matchId (((lookupA hist e.matchId).getD []) ++ [cardRecOf e]),
          some { type := "card_storm",
                 message := "🔥 CARD STORM! Multiple cards in short time",
                 count := ((((lookupA hist e.matchId).getD []) ++ [cardRecOf e]).filter
                   fun c : CardRec => withinTen e.minute c.minute).length })
      else
        (setA hist e.matchId (((lookupA hist e.matchId).getD []) ++ [cardRecOf e]), none) := by
  have hguard : (e.eventType == some "yellow_card" || e.eventType == some "red_card") = true := by
    rcases hcard with h | h <;> rw [h] <;> rfl
  unfold multipleCardsStep
  rw [if_pos hguard]
  simp only [cardRecOf]

/-- C7: for a fresh match, two card events produce no alert; a third card
whose minute is within 10 of the first (minutes non-decreasing) produces
exactly one `card_storm` alert with `count = 3`, on that third event. -/
theorem card_storm_on_third_card (hist : List (Option String × List CardRec))
    (e1 e2 e3 : Event) (m : Option String) (m1 m2 m3 : Int)
    (hm1 : e1.matchId = m) (hm2 : e2.matchId = m) (hm3 : e3.matchId = m)
    (ht1 : e1.eventType = some "yellow_card" ∨ e1.eventType = some "red_card")
    (ht2 : e2.eventType = some "yellow_card" ∨ e2.eventType = some "red_card")
    (ht3 : e3.eventType = some "yellow_card" ∨ e3.eventType = some "red_card")
    (hn1 : e1.minute = some m1) (hn2 : e2.minute = some m2) (hn3 : e3.minute = some m3)
    (h12 : m1 ≤ m2) (h23 : m2 ≤ m3) (h31 : m3 - m1 ≤ 10)
    (hfresh : lookupA hist m = none) :
    (multipleCardsRun hist [e1, e2]).2 = [none, none] ∧
      (multipleCardsRun hist [e1, e2, e3]).2 =
        [none, none,
          some { type := "card_storm",
                 message := "🔥 CARD STORM! Multiple cards in short time", count := 3 }] := by
  have hs1 := multipleCardsStep_card hist e1 ht1
  rw [hm1, hfresh] at hs1
  simp only [Option.getD_none, List.nil_append] at hs1
  rw [if_neg (by
    have := List.length_filter_le (fun c : CardRec => withinTen e1.minute c.minute)
      [cardRecOf e1]
    simp only [List.length_cons, List.length_nil] at this
    omega)] at hs1
  have hs2 := multipleCardsStep_card (setA hist m [cardRecOf e1]) e2 ht2
  rw [hm2, lookupA_setA_self] at hs2
  simp only [Option.getD_some, List.singleton_append, List.cons_append, List.nil_append] at hs2
  rw [if_neg (by
    have := List.length_filter_le (fun c : CardRec => withinTen e2.minute c.minute)
      [cardRecOf e1, cardRecOf e2]
    simp only [List.length_cons, List.length_nil] at this
    omega)] at hs2
  have hs3 := multipleCardsStep_card
    (setA (setA hist m [cardRecOf e1]) m [cardRecOf e1, cardRecOf e2]) e3 ht3
  rw [hm3, lookupA_setA_self] at hs3
  simp only [Option.getD_some, List.singleton_append, List.cons_append, List.nil_append] at hs3
  have hf1 : withinTen (some m3) (some m1) = true := by
    simp only [withinTen, decide_eq_true_eq]
    omega
  have hf2 : withinTen (some m3) (some m2) = true := by
    simp only [withinTen, decide_eq_true_eq]
    omega
  have hf3 : withinTen (some m3) (some m3) = true := by
    simp only [withinTen, decide_eq_true_eq]
    omega
  have hfl : (([cardRecOf e1, cardRecOf e2, cardRecOf e3] : List CardRec).filter
      fun c : CardRec => withinTen e3.minute c.minute).length = 3 := by
    simp [List.filter, cardRecOf, hn1, hn2, hn3, hf1, hf2, hf3]
  rw [hfl, if_pos (le_refl 3)] at hs3
  constructor
  · simp [multipleCardsRun, hs1, hs2]
  · simp [multipleCardsRun, hs1, hs2, hs3]

/-- A yellow card at a given minute in match `m5`. -/
def yCard (minute : Int) : Event :=
  { source := some "bwin", matchId := some "m5", eventType := some "yellow_card",
    timestamp := some "t", minute := some minute, homeTeam := none, awayTeam := none,
    score := none, goalData := none, cardData := some ⟨some "home", some "P", none⟩ }

/-- A red card at a given minute in match `m5`. -/
def rCard (minute : Int) : Event :=
  { source := some "bwin", matchId := some "m5", eventType := some "red_card",
    timestamp := some "t", minute := some minute, homeTeam := none, awayTeam := none,
    score := none, goalData := none, cardData := some ⟨some "away", some "Q", none⟩ }

/-- Witness for C7 at minutes 3, 7, 11. -/
theorem card_storm_on_third_card_witness :
    (multipleCardsRun [] [yCard 3, yCard 7]).2 = [none, none] ∧
      (multipleCardsRun [] [yCard 3, yCard 7, rCard 11]).2 =
        [none, none,
          some { type := "card_storm",
                 message := "🔥 CARD STORM! Multiple cards in short time", count := 3 }] :=
  card_storm_on_third_card [] (yCard 3) (yCard 7) (rCard 11) (some "m5") 3 7 11
    rfl rfl rfl (Or.inl rfl) (Or.inl rfl) (Or.inr rfl) rfl rfl rfl
    (by decide) (by decide) (by decide) rfl

/-- C3: below the attempt cap, each failure increments the counter and
schedules a retry after `reconnectDelay * min(attempt, 5)`; the delay is
non-decreasing in the attempt number; a successful `Connected` transition
resets the counter to zero; once the counter has reached
`maxReconnectAttempts`, `handleReconnect` emits the terminal
`maxReconnectReached` signal and schedules nothing. -/
theorem reconnect_backoff_policy (st : BCState) :
    (st.reconnectAttempts < st.maxReconnectAttempts →
      handleReconnect st =
        ({ st with reconnectAttempts := st.reconnectAttempts + 1 },
          ReconnectOutcome.scheduled (backoffDelay st.reconnectDelay (st.reconnectAttempts + 1))))
    ∧ (∀ a b : Nat, a ≤ b →
        backoffDelay st.reconnectDelay a ≤ backoffDelay st.reconnectDelay b)
    ∧ (onOpenReset st).reconnectAttempts = 0
    ∧ (st.maxReconnectAttempts ≤ st.reconnectAttempts →
        handleReconnect st = (st, ReconnectOutcome.maxReached)) := by
  refine ⟨fun h => ?_, fun a b hab => ?_, rfl, fun h => ?_⟩
  · unfold handleReconnect
    rw [if_neg (by omega)]
  · exact Nat.mul_le_mul_left st.reconnectDelay (min_le_min hab (le_refl 5))
  · unfold handleReconnect
    rw [if_pos h]

/-- A collector that has failed twice, with the default options
(`maxReconnectAttempts = 10`, `reconnectDelay = 3000`). -/
def twoFailuresState : BCState :=
  { reconnectAttempts := 2, maxReconnectAttempts := 10, reconnectDelay := 3000 }

/-- The same collector after ten consecutive failures. -/
def tenFailuresState : BCState :=
  { reconnectAttempts := 10, maxReconnectAttempts := 10, reconnectDelay := 3000 }

/-- Witness for C3: the third failure schedules a 9000 ms retry, delays grow
with the attempt number, a success resets the counter, and at the cap the
terminal signal is emitted. -/
theorem reconnect_backoff_policy_witness :
    handleReconnect twoFailuresState =
      ({ twoFailuresState with reconnectAttempts := 3 },
        ReconnectOutcome.scheduled (backoffDelay 3000 3))
    ∧ backoffDelay 3000 3 ≤ backoffDelay 3000 7
    ∧ (onOpenReset twoFailuresState).reconnectAttempts = 0
    ∧ handleReconnect tenFailuresState = (tenFailuresState, ReconnectOutcome.maxReached) := by
  refine ⟨(reconnect_backoff_policy twoFailuresState).1 (by decide),
    (reconnect_backoff_policy twoFailuresState).2.1 3 7 (by decide),
    (reconnect_backoff_policy twoFailuresState).2.2.1,
    (reconnect_backoff_policy tenFailuresState).2.2.2 (by decide)⟩

/-- A keep-alive frame: valid JSON, but not an event frame. -/
def pingMsg : BwinMsg := { BwinMsg.empty with type := some "ping" }

/-- C9 counterexample: on a valid-JSON keep-alive frame
(`{"type":"ping"}`), `BwinCollector.parseMessage` does not return the absent
result — it returns the parsed message itself, contradicting the claim that
every non-event frame yields `null`. -/
theorem bwin_keepalive_counterexample :
    bwinParseMessage (BwinRaw.jsonObj pingMsg) 0 =
        some (ParsedMessage.passthroughObj pingMsg)
      ∧ bwinParseMessage (BwinRaw.jsonObj pingMsg) 0 ≠ none := by
  constructor
  · rfl
  · decide

/-- C9 (amended): for raw input on which `JSON.parse` throws, `parseMessage`
(both the Bwin override and the `BaseCollector` default) returns `null`; a
parsed JSON `null` also yields `null`; every error thrown inside the parse
body is caught, and the `onMessage` read-loop callback never propagates an
exception — it always completes with a (possibly empty) emission. -/
theorem parse_never_throws (data : BwinRaw) (now : Nat) :
    (∀ text, data = BwinRaw.malformed text →
      bwinParseMessage data now = none ∧ baseParseMessage data = none)
    ∧ (data = BwinRaw.jsonNull → bwinParseMessage data now = none)
    ∧ (∀ err, bwinParseBody data now = Except.error err → bwinParseMessage data now = none)
    ∧ ∃ emitted, bwinOnMessage data now = Except.ok emitted := by
  refine ⟨fun text ht => ?_, fun hn => ?_, fun err herr => ?_, ?_⟩
  · rw [ht]
    exact ⟨rfl, rfl⟩
  · rw [hn]
    rfl
  · unfold bwinParseMessage
    rw [herr]
  · unfold bwinOnMessage
    cases bwinParseMessage data now with
    | none => exact ⟨none, rfl⟩
    | some msg =>
      by_cases h : truthyMsg (some msg) = true
      · rw [if_pos h]
        exact ⟨some msg, rfl⟩
      · rw [if_neg h]
        exact ⟨none, rfl⟩

/-- Witness for the amended C9 at the concrete non-JSON frame "PING". -/
theorem parse_never_throws_witness :
    bwinParseMessage (BwinRaw.malformed "PING") 0 = none
    ∧ baseParseMessage (BwinRaw.malformed "PING") = none
    ∧ ∃ emitted, bwinOnMessage (BwinRaw.malformed "PING") 0 = Except.ok emitted := by
  have h := parse_never_throws (BwinRaw.malformed "PING") 0
  exact ⟨(h.1 "PING" rfl).1, (h.1 "PING" rfl).2, h.2.2.2⟩

/-- A frame with no explicit minute whose period-start timestamp (60 s) lies
in the future of the wall clock (0 ms). -/
def futureStartData : SofaData :=
  { id := none, homeScoreCurrent := none, awayScoreCurrent := none, cardsCode := none,
    statusType := none, statusCode := none, statusDescription := none,
    currentPeriodStartTimestamp := some 60, homeTeamName := none, awayTeamName := none,
    tournamentName := none }

/-- C8 counterexample: the derived first-half minute is not clamped to the
range 0–45 — with the period start in the future the code returns `-1`. -/
theorem extractMinute_below_zero_counterexample :
    extractMinute 0 futureStartData = some (-1)
      ∧ ¬((0 : Int) ≤ -1 ∧ (-1 : Int) ≤ 45) := by
  constructor
  · rfl
  · decide

/-- C8 (amended): a digits-only `statusDescription` wins over the derived
minute; otherwise, with a nonzero period-start timestamp, the second-half
(status code 7) minute is `min (45 + elapsed) 90` (hence at most 90) and the
first-half minute is `min elapsed 45` — capped above at 45, and lying in 0–45
provided the period start is not in the future (there is no lower clamp at
0); with neither source the result is `null`. -/
theorem extractMinute_characterization (now : Int) (d : SofaData) (ts : Int) :
    ((truthyS d.statusDescription && isDigits (jsStr d.statusDescription).data) = true →
      extractMinute now d = some ((parseDigits (jsStr d.statusDescription).data : Nat) : Int))
    ∧ ((truthyS d.statusDescription && isDigits (jsStr d.statusDescription).data) = false →
        d.currentPeriodStartTimestamp = some ts → ts ≠ 0 →
        (d.statusCode = some 7 →
          extractMinute now d = some (min (45 + Int.fdiv (Int.fdiv now 1000 - ts) 60) 90)
          ∧ min (45 + Int.fdiv (Int.fdiv now 1000 - ts) 60) 90 ≤ 90)
        ∧ (d.statusCode ≠ some 7 →
          extractMinute now d = some (min (Int.fdiv (Int.fdiv now 1000 - ts) 60) 45)
          ∧ min (Int.fdiv (Int.fdiv now 1000 - ts) 60) 45 ≤ 45
          ∧ (ts ≤ Int.fdiv now 1000 →
              0 ≤ min (Int.fdiv (Int.fdiv now 1000 - ts) 60) 45)))
    ∧ ((truthyS d.statusDescription && isDigits (jsStr d.statusDescription).data) = false →
        (d.currentPeriodStartTimestamp = none ∨ d.currentPeriodStartTimestamp = some 0) →
        extractMinute now d = none) := by
  refine ⟨fun hx => ?_, fun hx hts hne => ?_, fun hx hnone => ?_⟩
  · unfold extractMinute
    rw [if_pos hx]
  · have hneg : ¬((truthyS d.statusDescription
        && isDigits (jsStr d.statusDescription).data) = true) := by
      rw [hx]
      exact Bool.false_ne_true
    refine ⟨fun h7 => ?_, fun h7 => ?_⟩
    · unfold extractMinute
      rw [if_neg hneg, hts]
      simp only [if_pos hne]
      rw [if_pos h7]
      exact ⟨rfl, min_le_right _ _⟩
    · unfold extractMinute
      rw [if_neg hneg, hts]
      simp only [if_pos hne]
      rw [if_neg h7]
      refine ⟨rfl, min_le_right _ _, fun hpast => ?_⟩
      exact le_min (Int.fdiv_nonneg (by omega) (by norm_num)) (by norm_num)
  · have hneg : ¬((truthyS d.statusDescription
        && isDigits (jsStr d.statusDescription).data) = true) := by
      rw [hx]
      exact Bool.false_ne_true
    unfold extractMinute
    rcases hnone with hn | hn
    · rw [if_neg hneg, hn]
    · rw [if_neg hneg, hn]
      simp

/-- A second-half frame: period start at 100 s, status code 7. -/
def secondHalfData : SofaData :=
  { id := none, homeScoreCurrent := none, awayScoreCurrent := none, cardsCode := none,
    statusType := none, statusCode := some 7, statusDescription := none,
    currentPeriodStartTimestamp := some 100, homeTeamName := none, awayTeamName := none,
    tournamentName := none }

/-- A first-half frame with an explicit minute "67" that must win. -/
def explicitMinuteData : SofaData :=
  { id := none, homeScoreCurrent := none, awayScoreCurrent := none, cardsCode := none,
    statusType := none, statusCode := some 7, statusDescription := some "67",
    currentPeriodStartTimestamp := some 100, homeTeamName := none, awayTeamName := none,
    tournamentName := none }

/-- A first-half frame: period start at 100 s, no status code. -/
def firstHalfData : SofaData :=
  { id := none, homeScoreCurrent := none, awayScoreCurrent := none, cardsCode := none,
    statusType := none, statusCode := none, statusDescription := none,
    currentPeriodStartTimestamp := some 100, homeTeamName := none, awayTeamName := none,
    tournamentName := none }

/-- Witness for the amended C8: at wall clock 4 000 000 ms (elapsed 65 min),
the explicit minute wins, the second-half minute caps at 90, the first-half
minute caps at 45 and is non-negative. -/
theorem extractMinute_characterization_witness :
    extractMinute 4000000 explicitMinuteData = some 67
    ∧ extractMinute 4000000 secondHalfData = some 90
    ∧ extractMinute 4000000 firstHalfData = some 45
    ∧ (0 : Int) ≤ 45 := by
  refine ⟨((extractMinute_characterization 4000000 explicitMinuteData 100).1
      (by decide)).trans (by decide),
    (((extractMinute_characterization 4000000 secondHalfData 100).2.1
      (by decide) rfl (by decide)).1 rfl).1.trans (by decide),
    (((extractMinute_characterization 4000000 firstHalfData 100).2.1
      (by decide) rfl (by decide)).2 (by decide)).1.trans (by decide),
    by decide⟩

/-- The first observation of a match initializes the score memory and emits
nothing, whatever score it shows. -/
theorem sofa_first_sight (st : SofaState) (d : SofaData) (wsT now : Int)
    (fr : MatchDetails) (ge ye re : EnrichInfo) (m : String) (h a : Int)
    (hid : d.id = some m) (hh : d.homeScoreCurrent = some h)
    (ha : d.awayScoreCurrent = some a) (hcards : truthyS d.cardsCode = false)
    (hfresh : lookupA st.previousScores m = none) :
    (handleMatchUpdate st d wsT now fr ge ye re).2 = []
    ∧ (handleMatchUpdate st d wsT now fr ge ye re).1.previousScores =
        (if d.statusType = some "finished" then eraseA (setA st.previousScores m ⟨h, a⟩) m
         else setA st.previousScores m ⟨h, a⟩) := by
  unfold handleMatchUpdate
  rw [hid]
  simp [hh, ha, hfresh, hcards]

/-- A subsequent observation with a strictly larger home score emits exactly
one event: a home goal. -/
theorem sofa_home_goal_step (st : SofaState) (d : SofaData) (wsT now : Int)
    (fr : MatchDetails) (ge ye re : EnrichInfo) (m : String) (prev : Score) (h a : Int)
    (hid : d.id = some m) (hh : d.homeScoreCurrent = some h)
    (ha : d.awayScoreCurrent = some a) (hcards : truthyS d.cardsCode = false)
    (hprev : lookupA st.previousScores m = some prev) (hgt : prev.home < h) :
    ∃ g : SofaEvent,
      (handleMatchUpdate st d wsT now fr ge ye re).2 = [g]
      ∧ g.eventType = some "goal" ∧ g.team = some "home" ∧ g.matchId = m := by
  unfold handleMatchUpdate
  rw [hid]
  simp only [hh, ha, hprev, hcards]
  simp [hgt, applyGoalEnrich]

/-- C5: for a match first observed at 0-0 and then observed at 1-0, exactly
one goal event is emitted, with `team = home`, on the second observation; for
a match first observed at a nonzero score (2-1), no goal event is emitted on
that first observation — the score memory is initialized on first sight and
goals are detected only against the last known score. -/
theorem sofa_score_diff_goal_detection (st : SofaState) (d0 d1 dX : SofaData)
    (m mX : String) (wsT0 wsT1 wsTX now0 now1 nowX : Int)
    (fr0 fr1 frX : MatchDetails) (ge0 ge1 geX ye0 ye1 yeX re0 re1 reX : EnrichInfo)
    (h0id : d0.id = some m) (h0h : d0.homeScoreCurrent = some 0)
    (h0a : d0.awayScoreCurrent = some 0) (h0c : truthyS d0.cardsCode = false)
    (h0f : d0.statusType ≠ some "finished")
    (hfresh : lookupA st.previousScores m = none)
    (h1id : d1.id = some m) (h1h : d1.homeScoreCurrent = some 1)
    (h1a : d1.awayScoreCurrent = some 0) (h1c : truthyS d1.cardsCode = false)
    (hXid : dX.id = some mX) (hXh : dX.homeScoreCurrent = some 2)
    (hXa : dX.awayScoreCurrent = some 1) (hXc : truthyS dX.cardsCode = false)
    (hXfresh : lookupA st.previousScores mX = none) :
    (handleMatchUpdate st d0 wsT0 now0 fr0 ge0 ye0 re0).2 = []
    ∧ (∃ g : SofaEvent,
        (handleMatchUpdate (handleMatchUpdate st d0 wsT0 now0 fr0 ge0 ye0 re0).1
          d1 wsT1 now1 fr1 ge1 ye1 re1).2 = [g]
        ∧ g.eventType = some "goal" ∧ g.team = some "home" ∧ g.matchId = m)
    ∧ (handleMatchUpdate st dX wsTX nowX frX geX yeX reX).2 = [] := by
  obtain ⟨hemp0, hstate0⟩ :=
    sofa_first_sight st d0 wsT0 now0 fr0 ge0 ye0 re0 m 0 0 h0id h0h h0a h0c hfresh
  have hprev1 :
      lookupA (handleMatchUpdate st d0 wsT0 now0 fr0 ge0 ye0 re0).1.previousScores m =
        some ⟨0, 0⟩ := by
    rw [hstate0, if_neg h0f, lookupA_setA_self]
  have hgoal :=
    sofa_home_goal_step (handleMatchUpdate st d0 wsT0 now0 fr0 ge0 ye0 re0).1
      d1 wsT1 now1 fr1 ge1 ye1 re1 m ⟨0, 0⟩ 1 0 h1id h1h h1a h1c hprev1 (by norm_num)
  obtain ⟨hempX, _⟩ :=
    sofa_first_sight st dX wsTX nowX frX geX yeX reX mX 2 1 hXid hXh hXa hXc hXfresh
  exact ⟨hemp0, hgoal, hempX⟩

/-- The first frame of match `m9`: score 0-0. -/
def sofaFrame00 : SofaData :=
  { id := some "m9", homeScoreCurrent := some 0, awayScoreCurrent := some 0,
    cardsCode := none, statusType := none, statusCode := none, statusDescription := none,
    currentPeriodStartTimestamp := none, homeTeamName := some "Lyon",
    awayTeamName := some "Nice", tournamentName := none }

/-- The second frame of match `m9`: score 1-0. -/
def sofaFrame10 : SofaData :=
  { sofaFrame00 with homeScoreCurrent := some 1 }

/-- First frame of a different match `mX` already at 2-1. -/
def sofaFrame21 : SofaData :=
  { id := some "mX", homeScoreCurrent := some 2, awayScoreCurrent := some 1,
    cardsCode := none, statusType := none, statusCode := none, statusDescription := none,
    currentPeriodStartTimestamp := none, homeTeamName := none, awayTeamName := none,
    tournamentName := none }

/-- The incidents-API outcome used in the witness. -/
def unknownEnrich : EnrichInfo :=
  { player := "Unknown", assistBy := none, minuteOverride := none, addedTime := none }

/-- The match-details fetch outcome used in the witness. -/
def witnessDetails : MatchDetails :=
  { homeTeam := some "Lyon", awayTeam := some "Nice", tournament := some "" }

/-- Witness for C5 on concrete frames: 0-0 emits nothing, the following 1-0
emits exactly one home-goal event, and a fresh match seen at 2-1 emits
nothing. -/
theorem sofa_score_diff_goal_detection_witness :
    (handleMatchUpdate ⟨[], []⟩ sofaFrame00 1 1000 witnessDetails
      unknownEnrich unknownEnrich unknownEnrich).2 = []
    ∧ (∃ g : SofaEvent,
        (handleMatchUpdate
          (handleMatchUpdate ⟨[], []⟩ sofaFrame00 1 1000 witnessDetails
            unknownEnrich unknownEnrich unknownEnrich).1
          sofaFrame10 2 2000 witnessDetails unknownEnrich unknownEnrich unknownEnrich).2 = [g]
        ∧ g.eventType = some "goal" ∧ g.team = some "home" ∧ g.matchId = "m9")
    ∧ (handleMatchUpdate ⟨[], []⟩ sofaFrame21 3 3000 witnessDetails
        unknownEnrich unknownEnrich unknownEnrich).2 = [] :=
  sofa_score_diff_goal_detection ⟨[], []⟩ sofaFrame00 sofaFrame10 sofaFrame21 "m9" "mX"
    1 2 3 1000 2000 3000 witnessDetails witnessDetails witnessDetails
    unknownEnrich unknownEnrich unknownEnrich unknownEnrich unknownEnrich unknownEnrich
    unknownEnrich unknownEnrich unknownEnrich
    rfl rfl rfl rfl (by decide) rfl rfl rfl rfl rfl rfl rfl rfl rfl rfl

end SportsScraper
